/-
  Verification development for the Ouro marketplace.

  Part 1: the ledger contract (src/marketplace/contracts/Ouro.sol) as a
  shallow embedding.  Solidity `revert` rolls back every state change of the
  call, so each state-changing entry point is translated as a function
  `ContractState → Except OuroError ContractState`: an `error` result is a
  reverted call and carries no state.  uint256 arithmetic is modelled by Nat
  (listing bounds price at 10^10 minor units, so no uint256 overflow is
  reachable on the monetary paths the claims touch).  ERC20 transfer calls
  are modelled by boolean outcome parameters (the token is an external
  contract) plus an append-only transfer log recording the successful
  transfers of the call, so "what was charged" is observable.
-/
import Mathlib

namespace Ouro

abbrev Address := Nat
abbrev ProductId := Nat

/-- Constant `LISTING_FEE = 2 * 10^6`. -/
def LISTING_FEE : Nat := 2 * 10 ^ 6

/-- Constant `PLATFORM_FEE_BPS = 800`. -/
def PLATFORM_FEE_BPS : Nat := 800

/-- Constant `MAX_TAGS = 8`. -/
def MAX_TAGS : Nat := 8

/-- Constant `MAX_NAME_LENGTH = 100`. -/
def MAX_NAME_LENGTH : Nat := 100

/-- The `Product` struct.  A missing mapping entry is the all-zero default
struct, with `listedAt = 0` serving as the existence test, exactly as in the
contract. -/
structure Product where
  id : ProductId
  seller : Address
  name : String
  tags : List String
  priceUSDC : Nat
  metadataURI : String
  totalSales : Nat
  totalRevenueUSDC : Nat
  listedAt : Nat
  deprecated : Bool
deriving Repr, DecidableEq

/-- The all-zero default value a Solidity mapping yields for an absent key. -/
def defaultProduct : Product :=
  { id := 0, seller := 0, name := "", tags := [], priceUSDC := 0
  , metadataURI := "", totalSales := 0, totalRevenueUSDC := 0
  , listedAt := 0, deprecated := false }

/-- The `Purchase` struct. -/
structure PurchaseRec where
  productId : ProductId
  buyer : Address
  amountPaid : Nat
  purchasedAt : Nat
  delivered : Bool
deriving Repr, DecidableEq

/-- A successful ERC20 transfer, recorded as (from, to, amount). -/
structure Transfer where
  src : Address
  dst : Address
  amount : Nat
deriving Repr, DecidableEq

/-- The contract's custom errors. -/
inductive OuroError where
  | InvalidName
  | InvalidTags
  | InvalidPrice
  | InvalidMetadataURI
  | ProductNotFound
  | ProductIsDeprecated
  | CannotBuyOwnProduct
  | NotProductOwner
  | NotProductBuyer
  | USDCTransferFailed
  | InvalidRating
deriving Repr, DecidableEq

/-- Point update of a one-key mapping. -/
def upd {β : Type} (f : Nat → β) (k : Nat) (v : β) : Nat → β :=
  fun x => if x = k then v else f x

/-- Point update of a two-key mapping. -/
def upd2 {β : Type} (f : Nat → Nat → β) (a k : Nat) (v : β) : Nat → Nat → β :=
  fun x => if x = a then upd (f x) k v else f x

/-- The contract's storage, together with the USDC transfer log and the two
addresses (`self` is `address(this)`, `treasury` the settlement account). -/
structure ContractState where
  self : Address
  treasury : Address
  totalProducts : Nat
  totalVolume : Nat
  products : ProductId → Product
  productRatings : ProductId → Nat
  productReviewCount : ProductId → Nat
  productPurchases : ProductId → List PurchaseRec
  hasPurchased : Address → ProductId → Bool
  usdcTransfers : List Transfer

/-- A fresh deployment: empty storage (every mapping at its zero default). -/
def initState (self treasury : Address) : ContractState :=
  { self := self, treasury := treasury
  , totalProducts := 0, totalVolume := 0
  , products := fun _ => defaultProduct
  , productRatings := fun _ => 0
  , productReviewCount := fun _ => 0
  , productPurchases := fun _ => []
  , hasPurchased := fun _ _ => false
  , usdcTransfers := [] }

/-- Entry point `listProduct(name, tags, priceUSDC, metadataURI)`.

`feeTransferOk` is the outcome of `USDC.transferFrom(msg.sender, treasury,
LISTING_FEE)`; `now` is `block.timestamp`; `pid` stands for the keccak256
product id computed from (sender, name, timestamp, totalProducts) — the hash
itself is not modelled, the id is taken as given.  Name length is byte
length, as `bytes(name).length` in the source. -/
def listProduct (s : ContractState) (sender : Address) (name : String)
    (tags : List String) (priceUSDC : Nat) (metadataURI : String)
    (feeTransferOk : Bool) (now : Nat) (pid : ProductId) :
    Except OuroError (ProductId × ContractState) :=
  if name.utf8ByteSize = 0 ∨ name.utf8ByteSize > MAX_NAME_LENGTH then
    .error .InvalidName
  else if tags.length = 0 ∨ tags.length > MAX_TAGS then
    .error .InvalidTags
  else if priceUSDC < 100000 ∨ priceUSDC > 10000 * 10 ^ 6 then
    .error .InvalidPrice
  else if metadataURI.utf8ByteSize = 0 then
    .error .InvalidMetadataURI
  else if ¬ feeTransferOk then
    .error .USDCTransferFailed
  else
    let prod : Product :=
      { id := pid, seller := sender, name := name, tags := tags
      , priceUSDC := priceUSDC, metadataURI := metadataURI
      , totalSales := 0, totalRevenueUSDC := 0
      , listedAt := now, deprecated := false }
    .ok (pid,
      { s with
          products := upd s.products pid prod
          totalProducts := s.totalProducts + 1
          usdcTransfers :=
            s.usdcTransfers ++ [⟨sender, s.treasury, LISTING_FEE⟩] })

/-- Entry point `purchase(productId)`.

`buyerTransferOk` is the outcome of `USDC.transferFrom(msg.sender,
address(this), price)`; `platformTransferOk` and `sellerTransferOk` the
outcomes of the two `USDC.transfer` calls; `now` is `block.timestamp`. -/
def purchase (s : ContractState) (sender : Address) (pid : ProductId)
    (buyerTransferOk platformTransferOk sellerTransferOk : Bool)
    (now : Nat) : Except OuroError ContractState :=
  let product := s.products pid
  if product.listedAt = 0 then .error .ProductNotFound
  else if product.deprecated then .error .ProductIsDeprecated
  else if sender = product.seller then .error .CannotBuyOwnProduct
  else
    let platformFee := product.priceUSDC * PLATFORM_FEE_BPS / 10000
    let sellerAmount := product.priceUSDC - platformFee
    if ¬ buyerTransferOk then .error .USDCTransferFailed
    else if ¬ (platformTransferOk ∧ sellerTransferOk) then
      .error .USDCTransferFailed
    else
      .ok { s with
              products := upd s.products pid
                { product with
                    totalSales := product.totalSales + 1
                    totalRevenueUSDC := product.totalRevenueUSDC + sellerAmount }
              totalVolume := s.totalVolume + product.priceUSDC
              productPurchases := upd s.productPurchases pid
                (s.productPurchases pid ++
                  [⟨pid, sender, product.priceUSDC, now, false⟩])
              hasPurchased := upd2 s.hasPurchased sender pid true
              usdcTransfers := s.usdcTransfers ++
                [ ⟨sender, s.self, product.priceUSDC⟩
                , ⟨s.self, s.treasury, platformFee⟩
                , ⟨s.self, product.seller, sellerAmount⟩ ] }

/-- Entry point `leaveReview(productId, rating)`.  Here `rating` is a uint8; values outside
1–5 revert before anything else, so Nat is adequate. -/
def leaveReview (s : ContractState) (sender : Address) (pid : ProductId)
    (rating : Nat) : Except OuroError ContractState :=
  if rating < 1 ∨ rating > 5 then .error .InvalidRating
  else if ¬ s.hasPurchased sender pid then .error .NotProductBuyer
  else if (s.products pid).listedAt = 0 then .error .ProductNotFound
  else
    let currentTotal := s.productRatings pid * s.productReviewCount pid
    let newCount := s.productReviewCount pid + 1
    .ok { s with
            productReviewCount := upd s.productReviewCount pid newCount
            productRatings := upd s.productRatings pid
              ((currentTotal + rating * 100) / newCount) }

/-- Entry point `deprecateProduct(productId)`. -/
def deprecateProduct (s : ContractState) (sender : Address)
    (pid : ProductId) : Except OuroError ContractState :=
  let product := s.products pid
  if sender ≠ product.seller then .error .NotProductOwner
  else
    .ok { s with products := upd s.products pid { product with deprecated := true } }

/-- The state a caller observes after a call: the new state on success, the
unchanged pre-state on revert. -/
def afterCall (s : ContractState) (r : Except OuroError ContractState) :
    ContractState :=
  match r with
  | .ok s2 => s2
  | .error _ => s

end Ouro

namespace Ouro

/-- C1: For every successful Purchase(productId) on a product with price p,
the computed platformFee equals floor(p * 800 / 10000), sellerAmount equals
p - platformFee (so platformFee + sellerAmount = p exactly), the product's
sale counter increases by exactly 1, and sellerAmount (not p) is added to
the product's cumulative revenue. -/
theorem purchase_fee_split (s : ContractState) (sender : Address)
    (pid : ProductId) (bt pt st : Bool) (now : Nat) (s2 : ContractState)
    (h : purchase s sender pid bt pt st now = .ok s2) :
    (s.products pid).priceUSDC * 800 / 10000 +
        ((s.products pid).priceUSDC -
          (s.products pid).priceUSDC * 800 / 10000) =
      (s.products pid).priceUSDC ∧
    (s2.products pid).totalSales = (s.products pid).totalSales + 1 ∧
    (s2.products pid).totalRevenueUSDC =
      (s.products pid).totalRevenueUSDC +
        ((s.products pid).priceUSDC -
          (s.products pid).priceUSDC * 800 / 10000) := by
  refine ⟨by omega, ?_⟩
  simp only [purchase] at h
  repeat' split at h
  all_goals try exact (Except.noConfusion h)
  injection h with h
  subst h
  constructor <;> simp [upd, PLATFORM_FEE_BPS]

/-- Demonstration state for the fee-split scenario: one product (id 1,
seller 5) priced at 1,000,000 minor units. -/
def demoC1state : ContractState :=
  { initState 100 200 with
      products := upd (fun _ => defaultProduct) 1
        { id := 1, seller := 5, name := "cap", tags := ["ai"]
        , priceUSDC := 1000000, metadataURI := "u"
        , totalSales := 0, totalRevenueUSDC := 0
        , listedAt := 7, deprecated := false } }

/-- The state after buyer 6 purchases product 1 in `demoC1state`. -/
def demoC1after : ContractState :=
  afterCall demoC1state (purchase demoC1state 6 1 true true true 9)

/-- Witness for C1 at the spec's scenario: price 1,000,000, fee 80,000,
seller amount 920,000, sale counter 1. -/
theorem purchase_fee_split_witness :
    (demoC1state.products 1).priceUSDC = 1000000 ∧
    1000000 * 800 / 10000 = 80000 ∧
    1000000 - 80000 = 920000 ∧
    (demoC1after.products 1).totalSales = 1 ∧
    (demoC1after.products 1).totalRevenueUSDC = 920000 ∧
    ((demoC1state.products 1).priceUSDC * 800 / 10000 +
        ((demoC1state.products 1).priceUSDC -
          (demoC1state.products 1).priceUSDC * 800 / 10000) =
      (demoC1state.products 1).priceUSDC ∧
    (demoC1after.products 1).totalSales =
      (demoC1state.products 1).totalSales + 1 ∧
    (demoC1after.products 1).totalRevenueUSDC =
      (demoC1state.products 1).totalRevenueUSDC +
        ((demoC1state.products 1).priceUSDC -
          (demoC1state.products 1).priceUSDC * 800 / 10000)) := by
  refine ⟨by decide, by decide, by decide, by decide, by decide, ?_⟩
  exact purchase_fee_split demoC1state 6 1 true true true 9 demoC1after rfl

/-- Like `demoC1state` but with the product deprecated. -/
def demoDeprState : ContractState :=
  { initState 100 200 with
      products := upd (fun _ => defaultProduct) 1
        { id := 1, seller := 5, name := "cap", tags := ["ai"]
        , priceUSDC := 1000000, metadataURI := "u"
        , totalSales := 0, totalRevenueUSDC := 0
        , listedAt := 7, deprecated := true } }

/-- C6: Purchase fails with ProductNotFound when no product with that id
exists (`listedAt = 0`), with ProductIsDeprecated (spec: ProductDeprecated)
when the deprecated flag is set, with CannotBuyOwnProduct (spec:
SelfPurchaseForbidden) when the caller is the seller, and with
USDCTransferFailed (spec: InsufficientFunds) when the buyer's payment
transfer cannot be completed; a failing call reverts, so the observed state
is unchanged. -/
theorem purchase_failure_modes (s : ContractState) (sender : Address)
    (pid : ProductId) (bt pt st : Bool) (now : Nat) :
    ((s.products pid).listedAt = 0 →
      purchase s sender pid bt pt st now = .error .ProductNotFound) ∧
    ((s.products pid).listedAt ≠ 0 → (s.products pid).deprecated = true →
      purchase s sender pid bt pt st now = .error .ProductIsDeprecated) ∧
    ((s.products pid).listedAt ≠ 0 → (s.products pid).deprecated = false →
      sender = (s.products pid).seller →
      purchase s sender pid bt pt st now = .error .CannotBuyOwnProduct) ∧
    ((s.products pid).listedAt ≠ 0 → (s.products pid).deprecated = false →
      sender ≠ (s.products pid).seller → bt = false →
      purchase s sender pid bt pt st now = .error .USDCTransferFailed) ∧
    (∀ e, purchase s sender pid bt pt st now = .error e →
      afterCall s (purchase s sender pid bt pt st now) = s) := by
  refine ⟨?_, ?_, ?_, ?_, ?_⟩
  · intro h1; simp [purchase, h1]
  · intro h1 h2; simp [purchase, h1, h2]
  · intro h1 h2 h3; simp [purchase, h1, h2, ← h3]
  · intro h1 h2 h3 h4; simp [purchase, h1, h2, h3, h4]
  · intro e he; simp [afterCall, he]

/-- Witness for C6: each failure branch exercised at a concrete input, and
the observed state after the failing call is the pre-state. -/
theorem purchase_failure_modes_witness :
    purchase (initState 100 200) 6 1 true true true 9 =
      .error .ProductNotFound ∧
    purchase demoDeprState 6 1 true true true 9 =
      .error .ProductIsDeprecated ∧
    purchase demoC1state 5 1 true true true 9 =
      .error .CannotBuyOwnProduct ∧
    purchase demoC1state 6 1 false true true 9 =
      .error .USDCTransferFailed ∧
    afterCall demoC1state (purchase demoC1state 6 1 false true true 9) =
      demoC1state :=
  ⟨(purchase_failure_modes (initState 100 200) 6 1 true true true 9).1 rfl,
   (purchase_failure_modes demoDeprState 6 1 true true true 9).2.1
     (by decide) rfl,
   (purchase_failure_modes demoC1state 5 1 true true true 9).2.2.1
     (by decide) rfl rfl,
   (purchase_failure_modes demoC1state 6 1 false true true 9).2.2.2.1
     (by decide) rfl (by decide) rfl,
   (purchase_failure_modes demoC1state 6 1 false true true 9).2.2.2.2
     .USDCTransferFailed rfl⟩

/-- C8: listProduct succeeds only when the name is non-empty and at most
100 bytes, there are 1–8 tags, the price is within the fixed bounds and the
listing-fee transfer completes; on success exactly one LISTING_FEE transfer
to the treasury is recorded and the created product is Active with the
submitted price and zero counters. -/
theorem listProduct_spec (s : ContractState) (sender : Address)
    (name : String) (tags : List String) (priceUSDC : Nat)
    (metadataURI : String) (feeOk : Bool) (now : Nat) (pid pid2 : ProductId)
    (s2 : ContractState)
    (hok : listProduct s sender name tags priceUSDC metadataURI feeOk now pid
      = .ok (pid2, s2)) :
    (1 ≤ name.utf8ByteSize ∧ name.utf8ByteSize ≤ 100) ∧
    (1 ≤ tags.length ∧ tags.length ≤ 8) ∧
    (100000 ≤ priceUSDC ∧ priceUSDC ≤ 10000 * 10 ^ 6) ∧
    feeOk = true ∧
    s2.usdcTransfers = s.usdcTransfers ++ [⟨sender, s.treasury, LISTING_FEE⟩] ∧
    (s2.products pid2).deprecated = false ∧
    (s2.products pid2).priceUSDC = priceUSDC ∧
    (s2.products pid2).totalSales = 0 ∧
    (s2.products pid2).totalRevenueUSDC = 0 := by
  simp only [listProduct] at hok
  repeat' split at hok
  all_goals try exact (Except.noConfusion hok)
  rename_i h1 h2 h3 h4 h5
  simp only [Except.ok.injEq, Prod.mk.injEq] at hok
  obtain ⟨hpid, hs2⟩ := hok
  subst hpid
  subst hs2
  simp only [MAX_NAME_LENGTH] at h1
  simp only [MAX_TAGS] at h2
  simp only [not_not] at h5
  refine ⟨by omega, by omega, by omega, by simpa using h5, ?_, ?_, ?_, ?_, ?_⟩
  all_goals simp [upd]

/-- The product id and state produced by a concrete successful listing. -/
def demoList : ProductId × ContractState :=
  match listProduct (initState 100 200) 5 "cap" ["ai"] 1000000 "u" true 7 1 with
  | .ok r => r
  | .error _ => (0, initState 100 200)

/-- Witness for C8 at a concrete valid listing. -/
theorem listProduct_spec_witness :
    (1 ≤ ("cap" : String).utf8ByteSize ∧
      ("cap" : String).utf8ByteSize ≤ 100) ∧
    (1 ≤ (["ai"] : List String).length ∧ (["ai"] : List String).length ≤ 8) ∧
    (100000 ≤ 1000000 ∧ 1000000 ≤ 10000 * 10 ^ 6) ∧
    true = true ∧
    demoList.2.usdcTransfers =
      (initState 100 200).usdcTransfers ++
        [⟨5, (initState 100 200).treasury, LISTING_FEE⟩] ∧
    (demoList.2.products demoList.1).deprecated = false ∧
    (demoList.2.products demoList.1).priceUSDC = 1000000 ∧
    (demoList.2.products demoList.1).totalSales = 0 ∧
    (demoList.2.products demoList.1).totalRevenueUSDC = 0 :=
  listProduct_spec (initState 100 200) 5 "cap" ["ai"] 1000000 "u" true 7 1
    demoList.1 demoList.2 rfl

/-- C7: a successful Review(productId, r) with old average a and old count n
stores average (a * n + r * 100) / (n + 1) with truncating division and
count n + 1; the new average never exceeds 100 times a common upper bound R
on the constituent ratings. -/
theorem leaveReview_average (s : ContractState) (sender : Address)
    (pid : ProductId) (r : Nat) (s2 : ContractState)
    (h : leaveReview s sender pid r = .ok s2) :
    s2.productRatings pid =
      (s.productRatings pid * s.productReviewCount pid + r * 100) /
        (s.productReviewCount pid + 1) ∧
    s2.productReviewCount pid = s.productReviewCount pid + 1 ∧
    (∀ R : Nat, s.productRatings pid ≤ 100 * R → r ≤ R →
      s2.productRatings pid ≤ 100 * R) := by
  simp only [leaveReview] at h
  repeat' split at h
  all_goals try exact (Except.noConfusion h)
  injection h with h
  subst h
  refine ⟨by simp [upd], by simp [upd], ?_⟩
  intro R ha hr
  have hb : s.productRatings pid * s.productReviewCount pid + r * 100 ≤
      100 * R * (s.productReviewCount pid + 1) := by
    have hx : s.productRatings pid * s.productReviewCount pid ≤
        100 * R * s.productReviewCount pid :=
      Nat.mul_le_mul_right _ ha
    have hy : r * 100 ≤ R * 100 := Nat.mul_le_mul_right 100 hr
    calc s.productRatings pid * s.productReviewCount pid + r * 100
        ≤ 100 * R * s.productReviewCount pid + R * 100 :=
          Nat.add_le_add hx hy
      _ = 100 * R * (s.productReviewCount pid + 1) := by ring
  calc ({ s with
      productReviewCount := upd s.productReviewCount pid
        (s.productReviewCount pid + 1)
      productRatings := upd s.productRatings pid
        ((s.productRatings pid * s.productReviewCount pid + r * 100) /
          (s.productReviewCount pid + 1)) } : ContractState).productRatings pid
      = (s.productRatings pid * s.productReviewCount pid + r * 100) /
          (s.productReviewCount pid + 1) := by simp [upd]
    _ ≤ 100 * R * (s.productReviewCount pid + 1) /
          (s.productReviewCount pid + 1) := Nat.div_le_div_right hb
    _ = 100 * R := Nat.mul_div_cancel _ (by omega)

/-- The state after buyer 6 reviews product 1 with rating 5. -/
def demoRev : ContractState :=
  afterCall demoC1after (leaveReview demoC1after 6 1 5)

/-- Witness for C7: the concrete first review with rating 5 yields average
500, count 1, and the bound at R = 5 holds. -/
theorem leaveReview_average_witness :
    demoRev.productRatings 1 = 500 ∧
    demoRev.productReviewCount 1 = 1 ∧
    demoRev.productRatings 1 ≤ 100 * 5 :=
  ⟨by decide, by decide,
   (leaveReview_average demoC1after 6 1 5 demoRev rfl).2.2 5
     (by decide) (by decide)⟩

/-- Whether a call committed (did not revert). -/
def callOk (r : Except OuroError ContractState) : Bool :=
  match r with
  | .ok _ => true
  | .error _ => false

/-- One committed (non-reverting) state-changing call of the contract.
`block.timestamp` is positive on any real chain; this environment fact is
recorded as `now ≠ 0` on the listing step. -/
inductive Step : ContractState → ContractState → Prop where
  | list (s : ContractState) (sender : Address) (name : String)
      (tags : List String) (price : Nat) (uri : String) (feeOk : Bool)
      (now : Nat) (pid pid2 : ProductId) (s2 : ContractState)
      (hnow : now ≠ 0)
      (h : listProduct s sender name tags price uri feeOk now pid =
        .ok (pid2, s2)) : Step s s2
  | buy (s : ContractState) (sender : Address) (pid : ProductId)
      (bt pt st : Bool) (now : Nat) (s2 : ContractState)
      (h : purchase s sender pid bt pt st now = .ok s2) : Step s s2
  | review (s : ContractState) (sender : Address) (pid : ProductId)
      (r : Nat) (s2 : ContractState)
      (h : leaveReview s sender pid r = .ok s2) : Step s s2
  | deprecate (s : ContractState) (sender : Address) (pid : ProductId)
      (s2 : ContractState)
      (h : deprecateProduct s sender pid = .ok s2) : Step s s2

/-- States reachable from a fresh deployment through committed calls. -/
inductive Reachable : ContractState → Prop where
  | init (self treasury : Address) : Reachable (initState self treasury)
  | step {s s2 : ContractState} : Reachable s → Step s s2 → Reachable s2

/-- The invariant: a recorded proof-of-purchase fact always points at a
listed (existing) product. -/
def PurchaseImpliesListed (s : ContractState) : Prop :=
  ∀ (b : Address) (p : ProductId),
    s.hasPurchased b p = true → (s.products p).listedAt ≠ 0

lemma inv_init (self treasury : Address) :
    PurchaseImpliesListed (initState self treasury) := by
  intro b p hbp
  simp [initState] at hbp

lemma inv_listProduct {s : ContractState} {sender : Address} {name : String}
    {tags : List String} {price : Nat} {uri : String} {feeOk : Bool}
    {now : Nat} {pid pid2 : ProductId} {s2 : ContractState}
    (hnow : now ≠ 0)
    (h : listProduct s sender name tags price uri feeOk now pid =
      .ok (pid2, s2))
    (hinv : PurchaseImpliesListed s) : PurchaseImpliesListed s2 := by
  simp only [listProduct] at h
  repeat' split at h
  all_goals try exact (Except.noConfusion h)
  simp only [Except.ok.injEq, Prod.mk.injEq] at h
  obtain ⟨hpid, hs2⟩ := h
  subst hpid
  subst hs2
  intro b p hbp
  by_cases hp : p = pid
  · subst hp
    simp [upd, hnow]
  · simp only [upd] at hbp ⊢
    simp only [if_neg hp]
    exact hinv b p hbp

lemma inv_purchase {s : ContractState} {sender : Address} {pid : ProductId}
    {bt pt st : Bool} {now : Nat} {s2 : ContractState}
    (h : purchase s sender pid bt pt st now = .ok s2)
    (hinv : PurchaseImpliesListed s) : PurchaseImpliesListed s2 := by
  simp only [purchase] at h
  repeat' split at h
  all_goals try exact (Except.noConfusion h)
  rename_i hne hdep hsell hbt hps
  injection h with h
  subst h
  intro b p hbp
  by_cases hp : p = pid
  · subst hp
    simpa [upd] using hne
  · have hbp' : s.hasPurchased b p = true := by
      simp only [upd2] at hbp
      by_cases hb : b = sender
      · rw [if_pos hb] at hbp
        simp only [upd] at hbp
        rwa [if_neg hp] at hbp
      · rwa [if_neg hb] at hbp
    simp only [upd, if_neg hp]
    exact hinv b p hbp'

lemma inv_leaveReview {s : ContractState} {sender : Address}
    {pid : ProductId} {r : Nat} {s2 : ContractState}
    (h : leaveReview s sender pid r = .ok s2)
    (hinv : PurchaseImpliesListed s) : PurchaseImpliesListed s2 := by
  simp only [leaveReview] at h
  repeat' split at h
  all_goals try exact (Except.noConfusion h)
  injection h with h
  subst h
  intro b p hbp
  exact hinv b p hbp

lemma inv_deprecate {s : ContractState} {sender : Address}
    {pid : ProductId} {s2 : ContractState}
    (h : deprecateProduct s sender pid = .ok s2)
    (hinv : PurchaseImpliesListed s) : PurchaseImpliesListed s2 := by
  simp only [deprecateProduct] at h
  repeat' split at h
  all_goals try exact (Except.noConfusion h)
  injection h with h
  subst h
  intro b p hbp
  by_cases hp : p = pid
  · subst hp
    have := hinv b p hbp
    simpa [upd] using this
  · simp only [upd, if_neg hp]
    exact hinv b p hbp

/-- A committed call preserves the invariant. -/
lemma step_inv {s s2 : ContractState} (hstep : Step s s2)
    (hinv : PurchaseImpliesListed s) : PurchaseImpliesListed s2 := by
  cases hstep with
  | list sender name tags price uri feeOk now pid pid2 s2 hnow h =>
    exact inv_listProduct hnow h hinv
  | buy sender pid bt pt st now s2 h => exact inv_purchase h hinv
  | review sender pid r s2 h => exact inv_leaveReview h hinv
  | deprecate sender pid s2 h => exact inv_deprecate h hinv

/-- The invariant holds in every reachable state. -/
lemma reachable_inv {s : ContractState} (hr : Reachable s) :
    PurchaseImpliesListed s := by
  induction hr with
  | init self treasury => exact inv_init self treasury
  | step _ hstep ih => exact step_inv hstep ih

/-- C9: in every reachable state, a proof-of-purchase fact implies the
product exists (listedAt nonzero), so a Review call by a proof-of-purchase
holder can never hit the ProductNotFound branch of leaveReview. -/
theorem hasPurchased_implies_listed (s : ContractState) (hr : Reachable s) :
    (∀ (b : Address) (p : ProductId),
      s.hasPurchased b p = true → (s.products p).listedAt ≠ 0) ∧
    (∀ (sender : Address) (pid : ProductId) (r : Nat),
      s.hasPurchased sender pid = true →
      leaveReview s sender pid r ≠ .error .ProductNotFound) := by
  have hinv := reachable_inv hr
  refine ⟨hinv, ?_⟩
  intro sender pid r hbp hcontra
  have hlist := hinv sender pid hbp
  simp only [leaveReview] at hcontra
  repeat' split at hcontra
  all_goals simp_all

/-- The state after listing product 1 from a fresh deployment. -/
def rdemo1 : ContractState := demoList.2

/-- State `rdemo1` after buyer 6 purchases product 1. -/
def rdemo2 : ContractState :=
  afterCall rdemo1 (purchase rdemo1 6 1 true true true 9)

/-- State `rdemo2` after seller 5 deprecates product 1. -/
def rdemo3 : ContractState :=
  afterCall rdemo2 (deprecateProduct rdemo2 5 1)

/-- Witness for C9 on the concrete reachable state `rdemo2`. -/
theorem hasPurchased_implies_listed_witness :
    rdemo2.hasPurchased 6 1 = true ∧
    (rdemo2.products 1).listedAt ≠ 0 ∧
    leaveReview rdemo2 6 1 4 ≠ .error .ProductNotFound := by
  have hr : Reachable rdemo2 :=
    Reachable.step
      (Reachable.step (Reachable.init 100 200)
        (Step.list (initState 100 200) 5 "cap" ["ai"] 1000000 "u" true 7 1 1
          rdemo1 (by decide) rfl))
      (Step.buy rdemo1 6 1 true true true 9 rdemo2 rfl)
  exact ⟨by decide,
    (hasPurchased_implies_listed rdemo2 hr).1 6 1 (by decide),
    (hasPurchased_implies_listed rdemo2 hr).2 6 1 4 (by decide)⟩

/-- C10: leaveReview never inspects the deprecated flag: in a reachable
state, a proof-of-purchase holder's Review with rating 1–5 succeeds and
updates the aggregate even when the product is deprecated. -/
theorem review_ignores_deprecated (s : ContractState) (hr : Reachable s)
    (sender : Address) (pid : ProductId) (r : Nat)
    (hbp : s.hasPurchased sender pid = true)
    (h1 : 1 ≤ r) (h5 : r ≤ 5)
    (hdep : (s.products pid).deprecated = true) :
    callOk (leaveReview s sender pid r) = true ∧
    (afterCall s (leaveReview s sender pid r)).productReviewCount pid =
      s.productReviewCount pid + 1 ∧
    (afterCall s (leaveReview s sender pid r)).productRatings pid =
      (s.productRatings pid * s.productReviewCount pid + r * 100) /
        (s.productReviewCount pid + 1) := by
  have hlist := reachable_inv hr sender pid hbp
  have hval : ¬ (r = 0 ∨ 5 < r) := by omega
  refine ⟨?_, ?_, ?_⟩ <;>
    simp [leaveReview, hval, hbp, hlist, callOk, afterCall, upd]

/-- Witness for C10 on `rdemo3`, where product 1 is deprecated and buyer 6
holds proof-of-purchase. -/
theorem review_ignores_deprecated_witness :
    (rdemo3.products 1).deprecated = true ∧
    rdemo3.hasPurchased 6 1 = true ∧
    callOk (leaveReview rdemo3 6 1 4) = true ∧
    (afterCall rdemo3 (leaveReview rdemo3 6 1 4)).productReviewCount 1 =
      rdemo3.productReviewCount 1 + 1 ∧
    (afterCall rdemo3 (leaveReview rdemo3 6 1 4)).productRatings 1 =
      (rdemo3.productRatings 1 * rdemo3.productReviewCount 1 + 4 * 100) /
        (rdemo3.productReviewCount 1 + 1) := by
  have hr : Reachable rdemo3 :=
    Reachable.step
      (Reachable.step
        (Reachable.step (Reachable.init 100 200)
          (Step.list (initState 100 200) 5 "cap" ["ai"] 1000000 "u" true 7 1 1
            rdemo1 (by decide) rfl))
        (Step.buy rdemo1 6 1 true true true 9 rdemo2 rfl))
      (Step.deprecate rdemo2 5 1 rdemo3 rfl)
  have hmain := review_ignores_deprecated rdemo3 hr 6 1 4
    (by decide) (by decide) (by decide) (by decide)
  exact ⟨by decide, by decide, hmain.1, hmain.2.1, hmain.2.2⟩

/-- C4 counterexample: in `demoRev`, buyer 6 has already reviewed
product 1 (count 1, average 500); a second Review by the same buyer does
not fail — it commits and changes the aggregate to count 2, average 350.
The contract declares no DuplicateReview error and keeps no record of who
reviewed. -/
theorem review_duplicate_counterexample :
    demoRev.productReviewCount 1 = 1 ∧
    demoRev.productRatings 1 = 500 ∧
    callOk (leaveReview demoRev 6 1 2) = true ∧
    (afterCall demoRev (leaveReview demoRev 6 1 2)).productReviewCount 1 = 2 ∧
    (afterCall demoRev (leaveReview demoRev 6 1 2)).productRatings 1 = 350 := by
  decide

/-- C4 amended: the contract does not enforce at-most-one review per buyer.
Whenever a buyer holds proof-of-purchase for an existing product, every
Review with rating 1–5 commits — in particular a second review by the same
buyer also commits and moves the aggregate again (review count increases by
one more). -/
theorem review_no_duplicate_guard (s : ContractState) (sender : Address)
    (pid : ProductId) (r : Nat)
    (hbp : s.hasPurchased sender pid = true)
    (hlist : (s.products pid).listedAt ≠ 0)
    (h1 : 1 ≤ r) (h5 : r ≤ 5) :
    callOk (leaveReview s sender pid r) = true ∧
    (afterCall s (leaveReview s sender pid r)).productReviewCount pid =
      s.productReviewCount pid + 1 ∧
    callOk (leaveReview (afterCall s (leaveReview s sender pid r))
      sender pid r) = true ∧
    (afterCall (afterCall s (leaveReview s sender pid r))
        (leaveReview (afterCall s (leaveReview s sender pid r))
          sender pid r)).productReviewCount pid =
      s.productReviewCount pid + 2 := by
  have hval : ¬ (r = 0 ∨ 5 < r) := by omega
  have hs1 : afterCall s (leaveReview s sender pid r) =
      { s with
          productReviewCount := upd s.productReviewCount pid
            (s.productReviewCount pid + 1)
          productRatings := upd s.productRatings pid
            ((s.productRatings pid * s.productReviewCount pid + r * 100) /
              (s.productReviewCount pid + 1)) } := by
    simp [leaveReview, hval, hbp, hlist, afterCall]
  refine ⟨?_, ?_, ?_, ?_⟩
  · simp [leaveReview, hval, hbp, hlist, callOk]
  · rw [hs1]; simp [upd]
  · rw [hs1]; simp [leaveReview, hval, hbp, hlist, callOk, upd]
  · rw [hs1]; simp [leaveReview, hval, hbp, hlist, afterCall, upd]

/-- Witness for the amended C4 on `demoC1after` (buyer 6 purchased
product 1, no review yet): two consecutive reviews both commit, counts 1
then 2. -/
theorem review_no_duplicate_guard_witness :
    callOk (leaveReview demoC1after 6 1 5) = true ∧
    (afterCall demoC1after (leaveReview demoC1after 6 1 5)).productReviewCount
      1 = demoC1after.productReviewCount 1 + 1 ∧
    callOk (leaveReview (afterCall demoC1after (leaveReview demoC1after 6 1 5))
      6 1 5) = true ∧
    (afterCall (afterCall demoC1after (leaveReview demoC1after 6 1 5))
        (leaveReview (afterCall demoC1after (leaveReview demoC1after 6 1 5))
          6 1 5)).productReviewCount 1 =
      demoC1after.productReviewCount 1 + 2 :=
  review_no_duplicate_guard demoC1after 6 1 5 (by decide) (by decide)
    (by decide) (by decide)

end Ouro

/-
  Part 2: the mirror store and its two ingestion paths.

  - `followerPurchased` embeds the ProductPurchased handler of the event
    indexer (`indexEvents`, watchEvent #2): it (1) bumps the matching
    product rows' totalSales and totalRevenueUSDC, (2) looks up the
    product's internal uuid, (3) inserts the transaction row with
    insert-or-ignore on the unique txHash column (schema: `tx_hash ...
    .unique()`), (4) upserts the seller's earnings.
  - `POST` embeds the POST handler of
    src/app/api/products/[id]/purchase/route.ts (the Receipt Intake
    boundary): missing fields → 400; a transaction row with the same
    txHash already present → ok with no writes; product resolved by uuid
    or chain id, else 404; otherwise insert the transaction row, bump the
    product's counters, and bump tagAnalytics.totalPurchases per tag.

  The database's decimal dollar columns and the JS `Number` arithmetic on
  them (`price * 0.08`, `Number(priceUSDC) / 1e6`, `.toFixed(2)`) are
  modelled as exact rational arithmetic; every property settled below is
  about which counters change and by how many integer steps, and is
  insensitive to sub-cent rounding.
-/

namespace Mirror

/-- A products-table row (the columns the purchase paths touch). -/
structure ProductRow where
  id : Nat
  productId : Nat
  sellerAddress : Nat
  tags : List String
  priceUSDC : ℚ
  totalSales : Nat
  totalRevenueUSDC : ℚ
deriving DecidableEq

/-- A transactions-table row.  `txHash` carries a storage-level uniqueness
constraint. -/
structure TxRow where
  txHash : Nat
  blockNumber : Nat
  typ : String
  productRef : Option Nat
  fromAddress : Nat
  toAddress : Option Nat
  amountUSDC : Option ℚ
  platformFeeUSDC : Option ℚ
  status : String
deriving DecidableEq

/-- A sellers-table row (the columns the follower touches). -/
structure SellerRow where
  address : Nat
  totalEarningsUSDC : ℚ
  totalListings : Nat
deriving DecidableEq

/-- The mirror store: product rows, transaction rows, the
tagAnalytics.totalPurchases counter per tag, and seller rows. -/
structure MirrorState where
  productRows : List ProductRow
  txRows : List TxRow
  tagPurchases : String → Nat
  sellerRows : List SellerRow

/-- A decoded ProductPurchased event together with its log coordinates. -/
structure PurchasedEvent where
  productId : Nat
  buyer : Nat
  seller : Nat
  priceUSDC : Nat
  platformFee : Nat
  txHash : Nat
  blockNumber : Nat
deriving DecidableEq

/-- Bump one tag's totalPurchases (insert-1-or-increment upsert). -/
def bumpTag (f : String → Nat) (tag : String) : String → Nat :=
  fun x => if x = tag then f x + 1 else f x

/-- The follower's ProductPurchased projection.  The guard mirrors
`if (!productId || !buyer || !seller) continue`; the product-stats update
runs unconditionally BEFORE the insert-or-ignore of the transaction row,
and adds the full price (not the seller amount) to totalRevenueUSDC. -/
def followerPurchased (m : MirrorState) (ev : PurchasedEvent) : MirrorState :=
  if ev.productId = 0 ∨ ev.buyer = 0 ∨ ev.seller = 0 then m
  else
    let prods := m.productRows.map (fun p =>
      if p.productId = ev.productId then
        { p with
            totalSales := p.totalSales + 1
            totalRevenueUSDC :=
              p.totalRevenueUSDC + (ev.priceUSDC : ℚ) / 1000000 }
      else p)
    let puuid := (prods.find? (fun p => p.productId = ev.productId)).map
      (fun p => p.id)
    let txs :=
      if m.txRows.any (fun row => row.txHash = ev.txHash) then m.txRows
      else m.txRows ++
        ([{ txHash := ev.txHash, blockNumber := ev.blockNumber
          , typ := "purchase", productRef := puuid
          , fromAddress := ev.buyer, toAddress := some ev.seller
          , amountUSDC := some ((ev.priceUSDC : ℚ) / 1000000)
          , platformFeeUSDC := some ((ev.platformFee : ℚ) / 1000000)
          , status := "confirmed" }] : List TxRow)
    let sellers :=
      if m.sellerRows.any (fun srow => srow.address = ev.seller) then
        m.sellerRows.map (fun srow =>
          if srow.address = ev.seller then
            { srow with
                totalEarningsUSDC :=
                  srow.totalEarningsUSDC + (ev.priceUSDC : ℚ) / 1000000 }
          else srow)
      else m.sellerRows ++
        ([{ address := ev.seller
          , totalEarningsUSDC := (ev.priceUSDC : ℚ) / 1000000
          , totalListings := 1 }] : List SellerRow)
    { m with productRows := prods, txRows := txs, sellerRows := sellers }

/-- The intake request body plus the [id] path parameter. -/
structure IntakeRequest where
  id : Nat
  txHash : Option Nat
  blockNumber : Option Nat
  buyerAddress : Option Nat
deriving DecidableEq

/-- The intake route's error responses (HTTP 400 / 404). -/
inductive IntakeError where
  | MissingFields
  | ProductNotFound
deriving DecidableEq, Repr

/-- The Receipt Intake handler. -/
def POST (m : MirrorState) (req : IntakeRequest) :
    Except IntakeError MirrorState :=
  match req.txHash, req.blockNumber, req.buyerAddress with
  | some txHash, some blockNumber, some buyer =>
    if m.txRows.any (fun row => row.txHash = txHash) then .ok m
    else
      match m.productRows.find?
          (fun p => p.id = req.id ∨ p.productId = req.id) with
      | none => .error .ProductNotFound
      | some product =>
        let price := product.priceUSDC
        let platformFee := price * 8 / 100
        let sellerAmount := price - platformFee
        let m1 := { m with txRows := m.txRows ++
          ([{ txHash := txHash, blockNumber := blockNumber
            , typ := "purchase", productRef := some product.id
            , fromAddress := buyer, toAddress := some product.sellerAddress
            , amountUSDC := some price, platformFeeUSDC := some platformFee
            , status := "confirmed" }] : List TxRow) }
        let bump : ProductRow → ProductRow := fun p =>
          if p.id = product.id then
            { p with
                totalSales := p.totalSales + 1
                totalRevenueUSDC := p.totalRevenueUSDC + sellerAmount }
          else p
        let m2 := { m1 with productRows := m1.productRows.map bump }
        let m3 := { m2 with
          tagPurchases := product.tags.foldl bumpTag m2.tagPurchases }
        .ok m3
  | _, _, _ => .error .MissingFields

/-- Whether the intake call succeeded (HTTP 200). -/
def intakeOk (m : MirrorState) (req : IntakeRequest) : Bool :=
  match POST m req with
  | .ok _ => true
  | .error _ => false

/-- The mirror state after an intake call (unchanged on an error
response). -/
def intakeAfter (m : MirrorState) (req : IntakeRequest) : MirrorState :=
  match POST m req with
  | .ok m2 => m2
  | .error _ => m

/-- The totalSales counter of the product row with internal uuid `u`. -/
def salesOfUuid (m : MirrorState) (u : Nat) : Nat :=
  ((m.productRows.find? (fun p => p.id = u)).map
    (fun p => p.totalSales)).getD 0

/-- A mirror product row for the demonstrations: uuid 11, chain id 1,
seller 5, priced $1.00. -/
def demoRow : ProductRow :=
  { id := 11, productId := 1, sellerAddress := 5, tags := ["ai"]
  , priceUSDC := 1, totalSales := 0, totalRevenueUSDC := 0 }

/-- A mirror store holding just `demoRow` and no transactions. -/
def demoMirror : MirrorState :=
  { productRows := [demoRow], txRows := [], tagPurchases := fun _ => 0
  , sellerRows := [] }

/-- An intake request claiming a purchase of product 11 by buyer 6 in
transaction 777. -/
def demoReq : IntakeRequest :=
  { id := 11, txHash := some 777, blockNumber := some 3
  , buyerAddress := some 6 }

/-- The ProductPurchased event of the same purchase (transaction 777). -/
def demoEvent : PurchasedEvent :=
  { productId := 1, buyer := 6, seller := 5, priceUSDC := 1000000
  , platformFee := 80000, txHash := 777, blockNumber := 3 }

/-- A transactions row already recorded for transaction 777. -/
def demoTxRow : TxRow :=
  { txHash := 777, blockNumber := 3, typ := "purchase"
  , productRef := some 11, fromAddress := 6, toAddress := some 5
  , amountUSDC := some 1, platformFeeUSDC := some (2/25)
  , status := "confirmed" }

/-- Store `demoMirror` with transaction 777 already recorded. -/
def demoDupMirror : MirrorState :=
  { demoMirror with txRows := [demoTxRow] }

/-- A mirror store with no product rows at all. -/
def demoEmptyMirror : MirrorState :=
  { productRows := [], txRows := [], tagPurchases := fun _ => 0
  , sellerRows := [] }

/-- C2 counterexample: the intake handler consults no ledger (its input is
only the mirror store and the request).  On a store whose transactions
table is empty — so the claimed transaction 777 is unknown to every ledger
the service could have mirrored — the call does not fail with
NotYetConfirmed: it succeeds and applies the full purchase effect from the
caller's claim alone. -/
theorem intake_counterexample :
    demoMirror.txRows = [] ∧
    intakeOk demoMirror demoReq = true ∧
    salesOfUuid (intakeAfter demoMirror demoReq) 11 = 1 ∧
    (intakeAfter demoMirror demoReq).txRows.length = 1 ∧
    (intakeAfter demoMirror demoReq).tagPurchases "ai" = 1 := by
  decide

/-- C2 corrected: the intake operation performs no ledger verification.
With all fields present, a previously unseen transaction reference and a
resolvable product row (stated for a store holding that product's single
row) it applies the purchase effect solely from the caller's claim; a
duplicate reference is an effect-free success; missing fields (400) and an
unknown product (404) are the only failures — no NotYetConfirmed or
ClaimMismatch path exists. -/
theorem intake_applies_unverified_claim
    (p : ProductRow) (txs : List TxRow) (tagc : String → Nat)
    (sellers : List SellerRow) (m : MirrorState) (idp t bn buyer : Nat) :
    (txs.any (fun row => row.txHash = t) = false →
     (p.id = idp ∨ p.productId = idp) →
      intakeOk ⟨[p], txs, tagc, sellers⟩
        ⟨idp, some t, some bn, some buyer⟩ = true ∧
      (intakeAfter ⟨[p], txs, tagc, sellers⟩
        ⟨idp, some t, some bn, some buyer⟩).txRows.length = txs.length + 1 ∧
      salesOfUuid (intakeAfter ⟨[p], txs, tagc, sellers⟩
        ⟨idp, some t, some bn, some buyer⟩) p.id = p.totalSales + 1) ∧
    (m.txRows.any (fun row => row.txHash = t) = true →
      POST m ⟨idp, some t, some bn, some buyer⟩ = .ok m) ∧
    (POST m ⟨idp, none, some bn, some buyer⟩ = .error .MissingFields) ∧
    (m.txRows.any (fun row => row.txHash = t) = false →
     m.productRows.find? (fun q => q.id = idp ∨ q.productId = idp) = none →
      POST m ⟨idp, some t, some bn, some buyer⟩ = .error .ProductNotFound) := by
  refine ⟨?_, ?_, ?_, ?_⟩
  · intro hfresh hmatch
    refine ⟨?_, ?_, ?_⟩ <;>
      rcases hmatch with hm | hm <;>
        simp [intakeOk, intakeAfter, POST, salesOfUuid, List.find?,
          hfresh, hm]
  · intro hdup
    simp [POST, hdup]
  · rfl
  · intro hfresh hnone
    simp only [Bool.decide_or] at hnone
    simp [POST, hfresh, hnone]

/-- Witness for the corrected C2: the fresh-reference effect application,
the duplicate no-op, and the two failure responses, each at a concrete
input. -/
theorem intake_applies_unverified_claim_witness :
    intakeOk demoMirror demoReq = true ∧
    (intakeAfter demoMirror demoReq).txRows.length =
      List.length ([] : List TxRow) + 1 ∧
    salesOfUuid (intakeAfter demoMirror demoReq) demoRow.id =
      demoRow.totalSales + 1 ∧
    POST demoDupMirror demoReq = .ok demoDupMirror ∧
    POST demoMirror ⟨11, none, some 3, some 6⟩ = .error .MissingFields ∧
    POST demoEmptyMirror demoReq = .error .ProductNotFound := by
  have h1 := (intake_applies_unverified_claim demoRow [] (fun _ => 0) []
    demoMirror 11 777 3 6).1 (by decide) (by decide)
  have h2 := (intake_applies_unverified_claim demoRow [] (fun _ => 0) []
    demoDupMirror 11 777 3 6).2.1 (by decide)
  have h3 := (intake_applies_unverified_claim demoRow [] (fun _ => 0) []
    demoMirror 11 777 3 6).2.2.1
  have h4 := (intake_applies_unverified_claim demoRow [] (fun _ => 0) []
    demoEmptyMirror 11 777 3 6).2.2.2 (by decide) (by decide)
  exact ⟨h1.1, h1.2.1, h1.2.2, h2, h3, h4⟩

/-- C3 counterexample: with transaction 777 already recorded in the mirror
store, re-applying the follower's Purchased handler for the same
transaction reference does NOT leave the counters unchanged: the product's
totalSales is bumped again (0 → 1) even though the transaction-row insert
is ignored. -/
theorem follower_replay_counterexample :
    demoDupMirror.txRows.any
      (fun row => row.txHash = demoEvent.txHash) = true ∧
    salesOfUuid demoDupMirror 11 = 0 ∧
    salesOfUuid (followerPurchased demoDupMirror demoEvent) 11 = 1 ∧
    (followerPurchased demoDupMirror demoEvent).txRows =
      demoDupMirror.txRows :=
  ⟨by decide, by decide, by decide, rfl⟩

/-- C3 corrected: only the Receipt Intake path is idempotent per
transaction reference (an already-present txHash row makes it an exact
no-op); the follower's Purchased handler bumps the product counters
unconditionally BEFORE its insert-or-ignore, so re-applying it for an
already-recorded transaction reference increments the sale counter again
while only the transaction-row insert is deduplicated. -/
theorem projection_idempotence_split (m : MirrorState) (p : ProductRow)
    (txs : List TxRow) (tagc : String → Nat) (sellers : List SellerRow)
    (ev : PurchasedEvent) (idp t bn buyer : Nat) :
    (m.txRows.any (fun row => row.txHash = t) = true →
      POST m ⟨idp, some t, some bn, some buyer⟩ = .ok m) ∧
    (p.productId = ev.productId → ev.productId ≠ 0 → ev.buyer ≠ 0 →
     ev.seller ≠ 0 →
     txs.any (fun row => row.txHash = ev.txHash) = true →
      (followerPurchased ⟨[p], txs, tagc, sellers⟩ ev).txRows = txs ∧
      salesOfUuid (followerPurchased ⟨[p], txs, tagc, sellers⟩ ev) p.id =
        p.totalSales + 1) := by
  constructor
  · intro hdup
    simp [POST, hdup]
  · intro hpid hz1 hz2 hz3 hdup
    have hguard : ¬ (ev.productId = 0 ∨ ev.buyer = 0 ∨ ev.seller = 0) := by
      simp [hz1, hz2, hz3]
    constructor <;>
      simp [followerPurchased, salesOfUuid, List.find?, hguard, hdup, hpid]

/-- Witness for the corrected C3 at the concrete replay input. -/
theorem projection_idempotence_split_witness :
    POST demoDupMirror demoReq = .ok demoDupMirror ∧
    (followerPurchased demoDupMirror demoEvent).txRows = [demoTxRow] ∧
    salesOfUuid (followerPurchased demoDupMirror demoEvent) demoRow.id =
      demoRow.totalSales + 1 := by
  have ha := (projection_idempotence_split demoDupMirror demoRow [demoTxRow]
    (fun _ => 0) [] demoEvent 11 777 3 6).1 (by decide)
  have hb := (projection_idempotence_split demoDupMirror demoRow [demoTxRow]
    (fun _ => 0) [] demoEvent 11 777 3 6).2 (by decide) (by decide)
    (by decide) (by decide) (by decide)
  exact ⟨ha, hb.1, hb.2⟩

/-- The final state when the follower projects purchase 777 first and the
intake receipt arrives second. -/
def demoFollowerFirst : MirrorState :=
  intakeAfter (followerPurchased demoMirror demoEvent) demoReq

/-- The final state when the intake receipt arrives first and the follower
projects the same purchase second. -/
def demoIntakeFirst : MirrorState :=
  followerPurchased (intakeAfter demoMirror demoReq) demoEvent

/-- C5 counterexample: delivering the two projections of the same purchase
(transaction 777) in the two orders does not yield an identical final
mirror state: follower-first ends with totalSales 1 and no tag-analytics
bump, intake-first ends with totalSales 2 and a tag-analytics bump. -/
theorem order_dependence_counterexample :
    salesOfUuid demoFollowerFirst 11 = 1 ∧
    salesOfUuid demoIntakeFirst 11 = 2 ∧
    demoFollowerFirst.tagPurchases "ai" = 0 ∧
    demoIntakeFirst.tagPurchases "ai" = 1 := by
  decide

/-- C5 corrected: the two delivery orders disagree (stated for a store
holding the purchased product's single row and no prior record of the
transaction).  Follower-first: the intake call no-ops on the duplicate
reference, leaving exactly one counter bump.  Intake-first: the follower
still bumps the counters unconditionally, leaving two bumps. -/
theorem projection_order_dependence (p : ProductRow) (txs : List TxRow)
    (tagc : String → Nat) (sellers : List SellerRow)
    (ev : PurchasedEvent) (idp bn buyer : Nat)
    (hfresh : txs.any (fun row => row.txHash = ev.txHash) = false)
    (hpid : p.productId = ev.productId)
    (hfind : p.id = idp ∨ p.productId = idp)
    (hz1 : ev.productId ≠ 0) (hz2 : ev.buyer ≠ 0) (hz3 : ev.seller ≠ 0) :
    salesOfUuid
      (intakeAfter (followerPurchased ⟨[p], txs, tagc, sellers⟩ ev)
        ⟨idp, some ev.txHash, some bn, some buyer⟩) p.id =
      p.totalSales + 1 ∧
    salesOfUuid
      (followerPurchased
        (intakeAfter ⟨[p], txs, tagc, sellers⟩
          ⟨idp, some ev.txHash, some bn, some buyer⟩) ev) p.id =
      p.totalSales + 2 := by
  have hguard : ¬ (ev.productId = 0 ∨ ev.buyer = 0 ∨ ev.seller = 0) := by
    simp [hz1, hz2, hz3]
  constructor
  · simp [followerPurchased, intakeAfter, POST, salesOfUuid, List.find?,
      hguard, hfresh, hpid, List.any_append]
  · rcases hfind with hm | hm
    · simp [followerPurchased, intakeAfter, POST, salesOfUuid, List.find?,
        hguard, hfresh, hpid, hm, List.any_append, Function.comp]
    · have hm2 : ev.productId = idp := by rw [← hpid]; exact hm
      rw [hm2] at hguard
      simp [followerPurchased, intakeAfter, POST, salesOfUuid, List.find?,
        hguard, hfresh, hpid, hm2, List.any_append, Function.comp]

/-- Witness for the corrected C5 at the concrete purchase 777. -/
theorem projection_order_dependence_witness :
    salesOfUuid demoFollowerFirst demoRow.id = demoRow.totalSales + 1 ∧
    salesOfUuid demoIntakeFirst demoRow.id = demoRow.totalSales + 2 :=
  projection_order_dependence demoRow [] (fun _ => 0) [] demoEvent 11 3 6
    (by decide) (by decide) (by decide) (by decide) (by decide) (by decide)

end Mirror
